import Mathlib

/-!
# Verification of `csrc/sparse/cutlass/sparse_scaled_mm_c3x.cuh`

Shallow embedding of the quantized sparse GEMM epilogues, the SM90
configuration table, the architecture guard and the dispatch entry point
of `sparse_scaled_mm_c3x.cuh`, with theorems checking the natural-language
specification against the code.

Modelling conventions:
* `float` values are modelled exactly by `ℚ`; CUTLASS's
  `FloatRoundStyle::round_to_nearest` is modelled as exact arithmetic.
* `int32_t` arithmetic wraps modulo `2^32` into `[-2^31, 2^31)`;
  this is made explicit through `int32wrap`.
* Device tensors are modelled as index functions (`Nat → ℚ`, `Nat → Int`),
  host tensors handed to `prepare_args` as `List ℚ` (`numel` = length).
-/

namespace SparseScaledMM

/-- Predicate: the integer is representable in `int32_t`. -/
def inInt32 (x : Int) : Prop := -(2 ^ 31) ≤ x ∧ x < 2 ^ 31

instance (x : Int) : Decidable (inInt32 x) := by
  unfold inInt32; infer_instance

/-- Two's-complement wrap-around of an unbounded integer into the
`int32_t` range `[-2^31, 2^31)`, as performed by native 32-bit integer
arithmetic on the device. -/
def int32wrap (x : Int) : Int := (x + 2 ^ 31) % 2 ^ 32 - 2 ^ 31

theorem int32wrap_eq_of_inInt32 (x : Int) (h : inInt32 x) : int32wrap x = x := by
  obtain ⟨h1, h2⟩ := h
  unfold int32wrap
  omega

theorem int32wrap_inInt32 (x : Int) : inInt32 (int32wrap x) := by
  unfold inInt32 int32wrap
  constructor <;> omega

theorem int32wrap_emod (x : Int) : int32wrap x % 2 ^ 32 = x % 2 ^ 32 := by
  unfold int32wrap
  omega

theorem int32wrap_congr (x y : Int) (h : x % 2 ^ 32 = y % 2 ^ 32) :
    int32wrap x = int32wrap y := by
  unfold int32wrap
  omega

theorem int32wrap_sub_wrap_right (a b : Int) :
    int32wrap (a - int32wrap b) = int32wrap (a - b) := by
  apply int32wrap_congr
  have := int32wrap_emod b
  unfold int32wrap at *
  omega

/-! ## Broadcast operand loaders

`ScaledEpilogueBase` (lines 60-114 of the source) instantiates four load
descriptors:

* `ColOrScalarLoad` / `RowOrScalarLoad` (`Sm90ColOrScalarBroadcast` /
  `Sm90RowOrScalarBroadcast`): a data pointer plus a boolean broadcast
  flag.  `args_from_tensor` sets the flag to `tensor.numel() != 1`
  (line 96).  Modelled from the spec: the loader implementation lives in
  `util/broadcast_load_epilogue_c3x.hpp`, outside the provided sources;
  the spec's Broadcast Operand Loader reads the operand "as either a
  per-tensor scalar or a per-row/per-column vector" — flag set means a
  per-index read, flag clear means every lane reads the single scalar.
* `ColLoad` / `RowLoad` (`Sm90ColBroadcast` / `Sm90RowBroadcast`) with an
  `EnableNullPtr` template flag.  Modelled from the spec / the source
  comment at lines 104-105: when the pointer is null and null pointers
  are enabled, "a constant (0) is used"; a descriptor with
  `EnableNullPtr = false` does not accept a null pointer.
-/

/-- Arguments of `Sm90ColOrScalarBroadcast` / `Sm90RowOrScalarBroadcast`:
a data pointer and the broadcast flag (`true` = per-row/per-column
vector, `false` = scalar). -/
structure OrScalarArgs where
  data : Nat → ℚ
  broadcast : Bool

/-- Reading the `i`-th element through a `ColOrScalarLoad` /
`RowOrScalarLoad` descriptor: per-index when the broadcast flag is set,
otherwise the single scalar at the pointer. -/
def orScalarLoad (d : OrScalarArgs) (i : Nat) : ℚ :=
  if d.broadcast then d.data i else d.data 0

/-- `ScaledEpilogueBase::args_from_tensor` for the `ColOrScalarLoad` /
`RowOrScalarLoad` descriptors (lines 90-102): binds the tensor's data
pointer and sets the broadcast flag to `tensor.numel() != 1`. -/
def args_from_tensor (t : List ℚ) : OrScalarArgs :=
  { data := fun i => t.getD i 0, broadcast := t.length ≠ 1 }

/-- Reading the `j`-th element through a `RowLoad` / `ColLoad` descriptor
with nullability flag `enableNull` (the `EnableNullPtr` template
argument).  A null pointer is `none`: with `enableNull` it yields the
constant `0`, without it the read is rejected. -/
def rowLoadOpt (enableNull : Bool) (ptr : Option (Nat → ℚ)) (j : Nat) : Option ℚ :=
  match ptr with
  | some f => some (f j)
  | none => if enableNull then some 0 else none

/-- The value produced by a nullable (`EnableNullPtr = true`) `RowLoad` /
`ColLoad`: `0` for a null pointer, the pointed-to element otherwise. -/
def biasLoad (ptr : Option (Nat → ℚ)) (j : Nat) : ℚ :=
  (rowLoadOpt true ptr j).getD 0

/-- `ScaledEpilogueBias` instantiates its bias as
`RowLoad<ElementD>` — `EnableNullPtr` defaulted to `false` (line 184). -/
def ScaledEpilogueBias_BiasEnableNull : Bool := false

/-- `ScaledEpilogueBiasAzp` and `ScaledEpilogueBiasAzpToken` instantiate
their bias as `RowLoad<ElementD, true>` — `EnableNullPtr = true`
(lines 230 and 294). -/
def ScaledEpilogueBiasAzp_BiasEnableNull : Bool := true

/-! ## The four epilogue variants

Each `EVTCompute` tree from the source is evaluated at one output
element `(i, j)` with raw accumulator `accum i j : Int` (the `int32_t`
accumulator of the 8-bit integer family).  Scale loads are `float`
(`ℚ`); the azp terms are `int32_t` and their arithmetic wraps. -/

/-- `ScaledEpilogue` (lines 132-165):
`EVTCompute = Compute1(ScaleA, Compute0(ScaleB, Accum))` with both
computes `cutlass::multiplies`, so
`D[i,j] = scaleA[i] * (scaleB[j] * accum[i,j])`. -/
def ScaledEpilogue_eval (scaleA scaleB : OrScalarArgs)
    (accum : Nat → Nat → Int) (i j : Nat) : ℚ :=
  orScalarLoad scaleA i * (orScalarLoad scaleB j * (accum i j : ℚ))

/-- `ScaledEpilogueBias` (lines 176-212):
`EVTCompute = Compute1(ScaleA, Compute0(ScaleB, Accum), Bias)` with
`Compute1 = cutlass::multiply_add`, so
`D[i,j] = scaleA[i] * (scaleB[j] * accum[i,j]) + bias[j]`.
The bias is a mandatory (non-null) per-channel tensor. -/
def ScaledEpilogueBias_eval (scaleA scaleB : OrScalarArgs) (bias : Nat → ℚ)
    (accum : Nat → Nat → Int) (i j : Nat) : ℚ :=
  orScalarLoad scaleA i * (orScalarLoad scaleB j * (accum i j : ℚ)) + bias j

/-- `ScaledEpilogueBiasAzp` (lines 222-274):
`ComputeAzp = Sm90Compute<cutlass::minus, float, int32_t>` computes
`float(accum - azp_adj)` in `int32_t`, then `ScaleB` multiplies and
`ComputeScaleBiasA = multiply_add` adds the (nullable) bias:
`D[i,j] = scaleA[i] * (scaleB[j] * float(accum[i,j] -32 azpAdj[j])) + bias[j]`. -/
def ScaledEpilogueBiasAzp_eval (scaleA scaleB : OrScalarArgs)
    (azpAdj : Nat → Int) (bias : Option (Nat → ℚ))
    (accum : Nat → Nat → Int) (i j : Nat) : ℚ :=
  orScalarLoad scaleA i *
      (orScalarLoad scaleB j * ((int32wrap (accum i j - azpAdj j) : Int) : ℚ)) +
    biasLoad bias j

/-- `ScaledEpilogueBiasAzpToken` (lines 286-352):
`ComputeAzp = Sm90Compute<cutlass::multiplies, int32_t, int32_t>` forms
`azp[i] * azpAdj[j]` in `int32_t`,
`ComputeAcc = Sm90Compute<cutlass::minus, float, int32_t>` computes
`float(accum - azp*azp_adj)` in `int32_t`, then `ScaleB` multiplies and
`multiply_add` adds the (nullable) bias. -/
def ScaledEpilogueBiasAzpToken_eval (scaleA scaleB : OrScalarArgs)
    (azp azpAdj : Nat → Int) (bias : Option (Nat → ℚ))
    (accum : Nat → Nat → Int) (i j : Nat) : ℚ :=
  orScalarLoad scaleA i *
      (orScalarLoad scaleB j *
        ((int32wrap (accum i j - int32wrap (azp i * azpAdj j)) : Int) : ℚ)) +
    biasLoad bias j

/-! ## The §4.1 formulas, written from the spec

For the refinement claims, these definitions follow the words of the
spec table (§4.1) over broadcast-resolved per-index inputs with exact
mathematical integer arithmetic. -/

/-- Spec §4.1: `D[i,j] = scaleA[i] · (scaleB[j] · accum[i,j])`. -/
def spec_ScaleOnly (sa sb : Nat → ℚ) (accum : Nat → Nat → Int) (i j : Nat) : ℚ :=
  sa i * (sb j * (accum i j : ℚ))

/-- Spec §4.1: `D[i,j] = scaleA[i] · (scaleB[j] · accum[i,j]) + bias[j]`. -/
def spec_ScaleBias (sa sb : Nat → ℚ) (bias : Nat → ℚ)
    (accum : Nat → Nat → Int) (i j : Nat) : ℚ :=
  sa i * (sb j * (accum i j : ℚ)) + bias j

/-- Spec §4.1: `D[i,j] = scaleA[i] · (scaleB[j] · (accum[i,j] − zpAdj[j])) + bias[j]`. -/
def spec_ScaleBiasZPPerTensor (sa sb : Nat → ℚ) (azpAdj : Nat → Int)
    (bias : Nat → ℚ) (accum : Nat → Nat → Int) (i j : Nat) : ℚ :=
  sa i * (sb j * ((accum i j - azpAdj j : Int) : ℚ)) + bias j

/-- Spec §4.1:
`D[i,j] = scaleA[i] · (scaleB[j] · (accum[i,j] − zp[i]·zpAdj[j])) + bias[j]`. -/
def spec_ScaleBiasZPPerToken (sa sb : Nat → ℚ) (azp azpAdj : Nat → Int)
    (bias : Nat → ℚ) (accum : Nat → Nat → Int) (i j : Nat) : ℚ :=
  sa i * (sb j * ((accum i j - azp i * azpAdj j : Int) : ℚ)) + bias j

/-! ## SM90 configuration table (8-bit integer family)

The `sm90_int8_config_*` structs (lines 601-671) fix a tile shape, a
cluster shape, kernel/epilogue schedules and the `int32_t` accumulator
type. -/

/-- The kernel schedules used by the int8 configurations. -/
inductive KernelScheduleTag where
  | tmaWarpSpecialized
  | tmaWarpSpecializedPingpong
  deriving DecidableEq, Repr

/-- A Configuration: tile shape, cluster shape, kernel schedule, and
accumulator type (`accInt32 = true` means `int32_t`). -/
structure GemmConfig where
  tileM : Nat
  tileN : Nat
  tileK : Nat
  clusterM : Nat
  clusterN : Nat
  clusterK : Nat
  schedule : KernelScheduleTag
  accInt32 : Bool
  deriving DecidableEq, Repr

/-- `sm90_int8_config_default` (lines 601-614): for `M > 128` and any N;
tile `128×128×128`, cluster `2×1×1`, pingpong schedule, `int32_t` accumulator. -/
def sm90_int8_config_default : GemmConfig :=
  { tileM := 128, tileN := 128, tileK := 128,
    clusterM := 2, clusterN := 1, clusterK := 1,
    schedule := .tmaWarpSpecializedPingpong, accInt32 := true }

/-- `sm90_int8_config_M128` (lines 616-629): for `M` in `(64, 128]` and any N;
tile `64×128×128`, cluster `2×1×1`, pingpong schedule. -/
def sm90_int8_config_M128 : GemmConfig :=
  { tileM := 64, tileN := 128, tileK := 128,
    clusterM := 2, clusterN := 1, clusterK := 1,
    schedule := .tmaWarpSpecializedPingpong, accInt32 := true }

/-- `sm90_int8_config_M64` (lines 631-643): for `M` in `(32, 64]` and any N;
tile `64×64×256`, unit cluster `1×1×1`. -/
def sm90_int8_config_M64 : GemmConfig :=
  { tileM := 64, tileN := 64, tileK := 256,
    clusterM := 1, clusterN := 1, clusterK := 1,
    schedule := .tmaWarpSpecialized, accInt32 := true }

/-- `sm90_int8_config_M32_NBig` (lines 645-657): for `M` in `[1, 32]` and
`N >= 8192`; tile `64×128×256`, cluster `1×4×1` (4-way along N). -/
def sm90_int8_config_M32_NBig : GemmConfig :=
  { tileM := 64, tileN := 128, tileK := 256,
    clusterM := 1, clusterN := 4, clusterK := 1,
    schedule := .tmaWarpSpecialized, accInt32 := true }

/-- `sm90_int8_config_M32_NSmall` (lines 659-671): for `M` in `[1, 32]` and
`N < 8192`; tile `64×64×256`, cluster `1×8×1` (8-way along N). -/
def sm90_int8_config_M32_NSmall : GemmConfig :=
  { tileM := 64, tileN := 64, tileK := 256,
    clusterM := 1, clusterN := 8, clusterK := 1,
    schedule := .tmaWarpSpecialized, accInt32 := true }

/-- Modelled from the spec: the Configuration Selector's dispatch function
for the 8-bit integer family is not under `src/` (only the configuration
structs it selects among are, each annotated with its intended bucket).
Spec §4.3: "8-bit integer family: bucketed by M — M≤32 further splits on N
(N≥8192 uses ... tile 64×128×256, 4-way cluster; N<8192 uses tile
64×64×256, 8-way cluster); 32<M≤64 uses tile 64×64×256, unit cluster;
64<M≤128 uses tile 64×128×128, two-way cluster; M>128 uses tile
128×128×128, two-way cluster." -/
def sm90_int8_dispatch (m n : Nat) : GemmConfig :=
  if m ≤ 32 then
    if 8192 ≤ n then sm90_int8_config_M32_NBig else sm90_int8_config_M32_NSmall
  else if m ≤ 64 then sm90_int8_config_M64
  else if m ≤ 128 then sm90_int8_config_M128
  else sm90_int8_config_default

/-! ## Architecture guard

`enable_sm90_or_later` (lines 46-54) wraps a kernel: its `operator()`
forwards to `Kernel::operator()` only under
`#if defined __CUDA_ARCH__ && __CUDA_ARCH__ >= 900`.  The compiled
architecture is `Option Nat` (`none`: `__CUDA_ARCH__` undefined, i.e.
host compilation); the wrapped kernel is a state transformer. -/

/-- The guarded `operator()` of `enable_sm90_or_later`: run the
underlying kernel body only when compiled for `__CUDA_ARCH__ >= 900`,
otherwise leave the state untouched. -/
def enable_sm90_or_later {σ : Type} (cudaArch : Option Nat)
    (kernelBody : σ → σ) (s : σ) : σ :=
  match cudaArch with
  | some arch => if 900 ≤ arch then kernelBody s else s
  | none => s

/-! ## Dispatch entry point

`cutlass_sparse_gemm_caller` (lines 413-478) derives shapes and strides,
builds the kernel arguments, then:

1. `CUTLASS_CHECK(gemm_op.can_implement(args))` — aborts the call with a
   failure status when the shapes/strides/configuration are not jointly
   implementable, before any device work;
2. `workspace_size = gemm_op.get_workspace_size(args)`;
3. `workspace = torch::empty(workspace_size, ...)` — the caller function
   itself allocates the scratch workspace as a transient device tensor;
4. `gemm_op.run(args, workspace.data_ptr(), stream)` — enqueues the kernel.

`can_implement`, `get_workspace_size` and the device execution are
external CUTLASS collaborators, modelled as parameters.  The device
allocations performed by the call are recorded as a list of sizes; the
output tensor contents after stream synchronization are part of the
outcome.  `ElementC = void` (line 378) and the C pointer is aliased to
the output pointer (line 459): the epilogue value of an element depends
only on the accumulator and the epilogue operands, never on prior output
contents, so the device write is modelled as overwriting the `(m, n)`
region with the per-element epilogue value. -/

/-- Status of one dispatch call. -/
inductive GemmStatus where
  | ok
  | cannotImplement
  | runtimeFailure
  deriving DecidableEq, Repr

/-- Outcome of one `cutlass_sparse_gemm_caller` invocation. -/
structure CallOutcome where
  /-- Sizes of the device allocations the call itself performed. -/
  allocs : List Nat
  /-- Number of kernels enqueued onto the stream. -/
  enqueued : Nat
  status : GemmStatus
  /-- Output tensor contents after the stream has drained. -/
  out : Nat → Nat → ℚ

/-- `cutlass_sparse_gemm_caller`: check implementability, query the
workspace size, allocate the workspace, run.  `epilogueEval` is the
assembled kernel's per-element epilogue result (a function of the
accumulator value and the element position only — `ElementC` is `void`,
so no source-C operand exists). -/
def cutlass_sparse_gemm_caller
    (canImplement : Bool) (workspaceSize : Nat) (runOk : Bool)
    (m n : Nat) (accum : Nat → Nat → Int)
    (epilogueEval : Int → Nat → Nat → ℚ)
    (oldOut : Nat → Nat → ℚ) : CallOutcome :=
  if canImplement then
    if runOk then
      { allocs := [workspaceSize], enqueued := 1, status := .ok,
        out := fun i j =>
          if i < m ∧ j < n then epilogueEval (accum i j) i j else oldOut i j }
    else
      { allocs := [workspaceSize], enqueued := 1, status := .runtimeFailure,
        out := oldOut }
  else
    { allocs := [], enqueued := 0, status := .cannotImplement, out := oldOut }

/-! ## Claim theorems -/

theorem getD_eq_of_forall_eq (t : List ℚ) (c : ℚ) (i : Nat)
    (hall : ∀ x ∈ t, x = c) (hi : i < t.length) : t[i]?.getD 0 = c := by
  rw [List.getElem?_eq_getElem hi]
  exact hall _ (List.getElem_mem hi)

/-- Claim C1: each of the four epilogue variants produces exactly the
§4.1 formula value at every output element, for every accumulator tile
and admissible scale/bias/zero-point input (the zero-point intermediate
values fit `int32_t`, so native 32-bit arithmetic is exact); floating
point is modelled exactly, so equality holds within any tolerance. -/
theorem epilogue_formulas_match_spec
    (scaleA scaleB : OrScalarArgs) (bias : Nat → ℚ) (obias : Option (Nat → ℚ))
    (azp azpAdj : Nat → Int) (accum : Nat → Nat → Int) (i j : Nat)
    (h1 : inInt32 (accum i j - azpAdj j))
    (h2 : inInt32 (azp i * azpAdj j))
    (h3 : inInt32 (accum i j - azp i * azpAdj j)) :
    ScaledEpilogue_eval scaleA scaleB accum i j
        = spec_ScaleOnly (orScalarLoad scaleA) (orScalarLoad scaleB) accum i j
    ∧ ScaledEpilogueBias_eval scaleA scaleB bias accum i j
        = spec_ScaleBias (orScalarLoad scaleA) (orScalarLoad scaleB) bias accum i j
    ∧ ScaledEpilogueBiasAzp_eval scaleA scaleB azpAdj obias accum i j
        = spec_ScaleBiasZPPerTensor (orScalarLoad scaleA) (orScalarLoad scaleB)
            azpAdj (biasLoad obias) accum i j
    ∧ ScaledEpilogueBiasAzpToken_eval scaleA scaleB azp azpAdj obias accum i j
        = spec_ScaleBiasZPPerToken (orScalarLoad scaleA) (orScalarLoad scaleB)
            azp azpAdj (biasLoad obias) accum i j := by
  refine ⟨rfl, rfl, ?_, ?_⟩
  · unfold ScaledEpilogueBiasAzp_eval spec_ScaleBiasZPPerTensor
    rw [int32wrap_eq_of_inInt32 _ h1]
  · unfold ScaledEpilogueBiasAzpToken_eval spec_ScaleBiasZPPerToken
    rw [int32wrap_eq_of_inInt32 _ h2, int32wrap_eq_of_inInt32 _ h3]

theorem epilogue_formulas_match_spec_witness :
    ScaledEpilogueBiasAzpToken_eval ⟨fun _ => 2, true⟩ ⟨fun _ => 3, false⟩
        (fun _ => 5) (fun _ => 7) (some fun _ => 11) (fun _ _ => 100) 0 0
      = spec_ScaleBiasZPPerToken (orScalarLoad ⟨fun _ => 2, true⟩)
          (orScalarLoad ⟨fun _ => 3, false⟩) (fun _ => 5) (fun _ => 7)
          (biasLoad (some fun _ => 11)) (fun _ _ => 100) 0 0 :=
  (epilogue_formulas_match_spec ⟨fun _ => 2, true⟩ ⟨fun _ => 3, false⟩
      (fun _ => 11) (some fun _ => 11) (fun _ => 5) (fun _ => 7)
      (fun _ _ => 100) 0 0 (by decide) (by decide) (by decide)).2.2.2

/-- Claim C2: the 8-bit integer Configuration Selector maps each (M, N)
to exactly the documented configuration, including all the boundary
values M = 32, 64, 65, 128, 129 and N = 8191, 8192. -/
theorem sm90_int8_dispatch_buckets :
    (∀ m n, m ≤ 32 → 8192 ≤ n →
        sm90_int8_dispatch m n
          = { tileM := 64, tileN := 128, tileK := 256,
              clusterM := 1, clusterN := 4, clusterK := 1,
              schedule := .tmaWarpSpecialized, accInt32 := true })
    ∧ (∀ m n, m ≤ 32 → n < 8192 →
        sm90_int8_dispatch m n
          = { tileM := 64, tileN := 64, tileK := 256,
              clusterM := 1, clusterN := 8, clusterK := 1,
              schedule := .tmaWarpSpecialized, accInt32 := true })
    ∧ (∀ m n, 32 < m → m ≤ 64 →
        sm90_int8_dispatch m n
          = { tileM := 64, tileN := 64, tileK := 256,
              clusterM := 1, clusterN := 1, clusterK := 1,
              schedule := .tmaWarpSpecialized, accInt32 := true })
    ∧ (∀ m n, 64 < m → m ≤ 128 →
        sm90_int8_dispatch m n
          = { tileM := 64, tileN := 128, tileK := 128,
              clusterM := 2, clusterN := 1, clusterK := 1,
              schedule := .tmaWarpSpecializedPingpong, accInt32 := true })
    ∧ (∀ m n, 128 < m →
        sm90_int8_dispatch m n
          = { tileM := 128, tileN := 128, tileK := 128,
              clusterM := 2, clusterN := 1, clusterK := 1,
              schedule := .tmaWarpSpecializedPingpong, accInt32 := true })
    ∧ sm90_int8_dispatch 32 8192 = sm90_int8_config_M32_NBig
    ∧ sm90_int8_dispatch 32 8191 = sm90_int8_config_M32_NSmall
    ∧ sm90_int8_dispatch 64 8192 = sm90_int8_config_M64
    ∧ sm90_int8_dispatch 65 8192 = sm90_int8_config_M128
    ∧ sm90_int8_dispatch 128 8191 = sm90_int8_config_M128
    ∧ sm90_int8_dispatch 129 8192 = sm90_int8_config_default := by
  refine ⟨?_, ?_, ?_, ?_, ?_, by decide, by decide, by decide, by decide,
    by decide, by decide⟩
  all_goals intros
  all_goals simp only [sm90_int8_dispatch, sm90_int8_config_M32_NBig,
    sm90_int8_config_M32_NSmall, sm90_int8_config_M64, sm90_int8_config_M128,
    sm90_int8_config_default]
  all_goals split_ifs <;> first | rfl | omega

theorem sm90_int8_dispatch_buckets_witness :
    sm90_int8_dispatch 16 9000
      = { tileM := 64, tileN := 128, tileK := 256,
          clusterM := 1, clusterN := 4, clusterK := 1,
          schedule := .tmaWarpSpecialized, accInt32 := true } :=
  sm90_int8_dispatch_buckets.1 16 9000 (by decide) (by decide)

/-- Claim C3, counterexample: the dispatch entry point itself allocates
device storage during the call — the scratch workspace is obtained via
`torch::empty` inside `cutlass_sparse_gemm_caller`, not supplied by the
caller; a concrete successful invocation records a non-empty allocation
list. -/
theorem gemm_caller_allocates_counterexample :
    (cutlass_sparse_gemm_caller true 64 true 2 2 (fun _ _ => 0)
        (fun a _ _ => (a : ℚ)) (fun _ _ => 0)).allocs ≠ [] := by
  simp [cutlass_sparse_gemm_caller]

/-- Claim C3, amended: the core queries the required workspace size from
the assembled kernel and then itself allocates the scratch workspace (a
transient device tensor of exactly the queried size) for the duration of
the call; that workspace is the only device storage the call allocates,
and no allocation happens when implementability validation fails. -/
theorem gemm_caller_workspace_self_allocated
    (canImplement : Bool) (workspaceSize : Nat) (runOk : Bool) (m n : Nat)
    (accum : Nat → Nat → Int) (epilogueEval : Int → Nat → Nat → ℚ)
    (oldOut : Nat → Nat → ℚ) :
    (canImplement = true →
      (cutlass_sparse_gemm_caller canImplement workspaceSize runOk m n accum
          epilogueEval oldOut).allocs = [workspaceSize])
    ∧ (canImplement = false →
      (cutlass_sparse_gemm_caller canImplement workspaceSize runOk m n accum
          epilogueEval oldOut).allocs = []) := by
  refine ⟨fun h => ?_, fun h => ?_⟩ <;> subst h
  · unfold cutlass_sparse_gemm_caller
    rw [if_pos rfl]
    split <;> rfl
  · rfl

theorem gemm_caller_workspace_self_allocated_witness :
    (cutlass_sparse_gemm_caller true 4096 true 8 8 (fun _ _ => 1)
        (fun a _ _ => (a : ℚ)) (fun _ _ => 0)).allocs = [4096] :=
  (gemm_caller_workspace_self_allocated true 4096 true 8 8 (fun _ _ => 1)
      (fun a _ _ => (a : ℚ)) (fun _ _ => 0)).1 rfl

/-- Claim C4: if every entry of the per-row zero-point vector equals the
constant z, the per-token epilogue output equals the per-tensor epilogue
output with the adjustment vector scaled elementwise by z (exactly, even
under 32-bit wrap-around, since wrapping commutes with the subtraction
modulo 2^32). -/
theorem perToken_matches_perTensor_scaled
    (scaleA scaleB : OrScalarArgs) (obias : Option (Nat → ℚ))
    (azp azpAdj : Nat → Int) (z : Int) (accum : Nat → Nat → Int) (i j : Nat)
    (hz : ∀ r, azp r = z) :
    ScaledEpilogueBiasAzpToken_eval scaleA scaleB azp azpAdj obias accum i j
      = ScaledEpilogueBiasAzp_eval scaleA scaleB (fun t => z * azpAdj t)
          obias accum i j := by
  unfold ScaledEpilogueBiasAzpToken_eval ScaledEpilogueBiasAzp_eval
  rw [hz i, int32wrap_sub_wrap_right]

theorem perToken_matches_perTensor_scaled_witness :
    ScaledEpilogueBiasAzpToken_eval ⟨fun _ => 2, false⟩ ⟨fun _ => 3, false⟩
        (fun _ => 4) (fun _ => 6) (some fun _ => 1) (fun _ _ => 50) 0 0
      = ScaledEpilogueBiasAzp_eval ⟨fun _ => 2, false⟩ ⟨fun _ => 3, false⟩
          (fun t => 4 * (fun _ => (6 : Int)) t) (some fun _ => 1)
          (fun _ _ => 50) 0 0 :=
  perToken_matches_perTensor_scaled ⟨fun _ => 2, false⟩ ⟨fun _ => 3, false⟩
    (some fun _ => 1) (fun _ => 4) (fun _ => 6) 4 (fun _ _ => 50) 0 0
    (fun _ => rfl)

/-- Claim C5: replacing a scale vector whose elements all equal c by a
scalar descriptor of value c leaves both the loaded value and the
epilogue output unchanged, and any descriptor built from a tensor with
element count 1 is resolved as a scalar (every index reads element 0),
regardless of logical shape. -/
theorem broadcast_equivalence
    (t : List ℚ) (c : ℚ) (scaleB : OrScalarArgs)
    (accum : Nat → Nat → Int) (i j : Nat)
    (hall : ∀ x ∈ t, x = c) (hi : i < t.length) :
    orScalarLoad (args_from_tensor t) i = orScalarLoad (args_from_tensor [c]) i
    ∧ ScaledEpilogue_eval (args_from_tensor t) scaleB accum i j
        = ScaledEpilogue_eval (args_from_tensor [c]) scaleB accum i j
    ∧ (∀ (u : List ℚ) (k : Nat), u.length = 1 →
        orScalarLoad (args_from_tensor u) k = u.getD 0 0) := by
  have hload : orScalarLoad (args_from_tensor t) i
      = orScalarLoad (args_from_tensor [c]) i := by
    by_cases h1 : t.length = 1
    · simp only [orScalarLoad, args_from_tensor, h1]
      simp only [List.length_singleton]
      simp
      exact getD_eq_of_forall_eq t c 0 hall (by omega)
    · simp only [orScalarLoad, args_from_tensor, List.length_singleton]
      simp [h1]
      exact getD_eq_of_forall_eq t c i hall hi
  refine ⟨hload, ?_, ?_⟩
  · unfold ScaledEpilogue_eval
    rw [hload]
  · intro u k h
    unfold orScalarLoad args_from_tensor
    simp [h]

theorem broadcast_equivalence_witness :
    orScalarLoad (args_from_tensor [(2 : ℚ), 2, 2]) 1
      = orScalarLoad (args_from_tensor [(2 : ℚ)]) 1 :=
  (broadcast_equivalence [(2 : ℚ), 2, 2] 2 ⟨fun _ => 1, false⟩
      (fun _ _ => 0) 1 0 (by decide) (by decide)).1

/-- Claim C6: in both zero-point variants the subtraction from the
accumulator (and, per-token, the product zp·zpAdj) is performed in the
accumulator's native 32-bit integer arithmetic — the value handed to the
floating-point stages lies in the `int32_t` range and is congruent
modulo 2^32 to the exact integer expression — and only then is it
converted to floating point, where the scale multiplications and the
bias fused-multiply-add are applied and the result cast to the output
element type (floating point modelled exactly). -/
theorem azp_native_int32_arithmetic
    (scaleA scaleB : OrScalarArgs) (obias : Option (Nat → ℚ))
    (azp azpAdj : Nat → Int) (accum : Nat → Nat → Int) (i j : Nat) :
    (inInt32 (int32wrap (accum i j - azpAdj j))
      ∧ int32wrap (accum i j - azpAdj j) % 2 ^ 32 = (accum i j - azpAdj j) % 2 ^ 32
      ∧ ScaledEpilogueBiasAzp_eval scaleA scaleB azpAdj obias accum i j
          = orScalarLoad scaleA i *
              (orScalarLoad scaleB j * ((int32wrap (accum i j - azpAdj j) : Int) : ℚ))
            + biasLoad obias j)
    ∧ (inInt32 (int32wrap (azp i * azpAdj j))
      ∧ int32wrap (azp i * azpAdj j) % 2 ^ 32 = azp i * azpAdj j % 2 ^ 32
      ∧ inInt32 (int32wrap (accum i j - int32wrap (azp i * azpAdj j)))
      ∧ int32wrap (accum i j - int32wrap (azp i * azpAdj j)) % 2 ^ 32
          = (accum i j - azp i * azpAdj j) % 2 ^ 32
      ∧ ScaledEpilogueBiasAzpToken_eval scaleA scaleB azp azpAdj obias accum i j
          = orScalarLoad scaleA i *
              (orScalarLoad scaleB j *
                ((int32wrap (accum i j - int32wrap (azp i * azpAdj j)) : Int) : ℚ))
            + biasLoad obias j) := by
  refine ⟨⟨int32wrap_inInt32 _, int32wrap_emod _, rfl⟩,
    int32wrap_inInt32 _, int32wrap_emod _, int32wrap_inInt32 _, ?_, rfl⟩
  rw [int32wrap_sub_wrap_right]
  exact int32wrap_emod _

/-- Claim C7: the guarded `operator()` of `enable_sm90_or_later` invokes
the underlying kernel exactly when the compiled architecture is at least
sm90; when compiled for an older architecture (or for the host, where
`__CUDA_ARCH__` is undefined) it performs no work and leaves the state
unchanged. -/
theorem enable_sm90_guard {σ : Type} (cudaArch : Option Nat)
    (kernelBody : σ → σ) (s : σ) :
    (∀ a, cudaArch = some a → 900 ≤ a →
        enable_sm90_or_later cudaArch kernelBody s = kernelBody s)
    ∧ (∀ a, cudaArch = some a → a < 900 →
        enable_sm90_or_later cudaArch kernelBody s = s)
    ∧ (cudaArch = none → enable_sm90_or_later cudaArch kernelBody s = s) := by
  refine ⟨?_, ?_, ?_⟩
  · intro a ha h
    subst ha
    simp [enable_sm90_or_later, h]
  · intro a ha h
    subst ha
    simp [enable_sm90_or_later, Nat.not_le.mpr h]
  · intro h
    subst h
    rfl

theorem enable_sm90_guard_witness :
    enable_sm90_or_later (some 899) Nat.succ 0 = 0 :=
  (enable_sm90_guard (some 899) Nat.succ 0).2.1 899 rfl (by decide)

/-- Claim C8: the dispatcher checks `can_implement` before committing to
a launch; when the check fails the call ends with the distinguishable
`cannotImplement` status, enqueues no kernel, allocates nothing, and
leaves the output untouched. -/
theorem gemm_caller_validates_before_launch
    (canImplement : Bool) (workspaceSize : Nat) (runOk : Bool) (m n : Nat)
    (accum : Nat → Nat → Int) (epilogueEval : Int → Nat → Nat → ℚ)
    (oldOut : Nat → Nat → ℚ)
    (h : canImplement = false) :
    (cutlass_sparse_gemm_caller canImplement workspaceSize runOk m n accum
        epilogueEval oldOut).status = .cannotImplement
    ∧ (cutlass_sparse_gemm_caller canImplement workspaceSize runOk m n accum
        epilogueEval oldOut).enqueued = 0
    ∧ (cutlass_sparse_gemm_caller canImplement workspaceSize runOk m n accum
        epilogueEval oldOut).allocs = []
    ∧ (cutlass_sparse_gemm_caller canImplement workspaceSize runOk m n accum
        epilogueEval oldOut).out = oldOut := by
  subst h
  exact ⟨rfl, rfl, rfl, rfl⟩

theorem gemm_caller_validates_before_launch_witness :
    (cutlass_sparse_gemm_caller false 64 true 2 2 (fun _ _ => 0)
        (fun a _ _ => (a : ℚ)) (fun _ _ => 7)).enqueued = 0 :=
  (gemm_caller_validates_before_launch false 64 true 2 2 (fun _ _ => 0)
      (fun a _ _ => (a : ℚ)) (fun _ _ => 7) rfl).2.1

/-- Claim C9: the two zero-point variants accept an absent bias — a null
pointer is bound and the bias contributes a constant zero, so the output
equals the output with an all-zero bias tensor — whereas the plain
`ScaledEpilogueBias` variant's bias descriptor has null pointers
disabled and rejects a null bias (a non-null bias reads per-channel as
usual). -/
theorem bias_optionality
    (scaleA scaleB : OrScalarArgs) (azp azpAdj : Nat → Int)
    (accum : Nat → Nat → Int) (i j : Nat) :
    ScaledEpilogueBiasAzp_eval scaleA scaleB azpAdj none accum i j
      = ScaledEpilogueBiasAzp_eval scaleA scaleB azpAdj (some fun _ => 0) accum i j
    ∧ ScaledEpilogueBiasAzpToken_eval scaleA scaleB azp azpAdj none accum i j
      = ScaledEpilogueBiasAzpToken_eval scaleA scaleB azp azpAdj
          (some fun _ => 0) accum i j
    ∧ rowLoadOpt ScaledEpilogueBiasAzp_BiasEnableNull none j = some 0
    ∧ rowLoadOpt ScaledEpilogueBias_BiasEnableNull none j = none
    ∧ (∀ f : Nat → ℚ,
        rowLoadOpt ScaledEpilogueBias_BiasEnableNull (some f) j = some (f j)) := by
  exact ⟨rfl, rfl, rfl, rfl, fun _ => rfl⟩

/-- Claim C10: the output is a pure overwrite — `ElementC` is `void` and
the C pointer is aliased to the output pointer, so two successful
invocations that differ only in the prior contents of the output tensor
produce identical values at every computed element. -/
theorem gemm_caller_output_independent_of_prior
    (workspaceSize : Nat) (m n : Nat)
    (accum : Nat → Nat → Int) (epilogueEval : Int → Nat → Nat → ℚ)
    (oldOut1 oldOut2 : Nat → Nat → ℚ) (i j : Nat)
    (hi : i < m) (hj : j < n) :
    (cutlass_sparse_gemm_caller true workspaceSize true m n accum
        epilogueEval oldOut1).out i j
      = (cutlass_sparse_gemm_caller true workspaceSize true m n accum
        epilogueEval oldOut2).out i j := by
  simp [cutlass_sparse_gemm_caller, hi, hj]

theorem gemm_caller_output_independent_of_prior_witness :
    (cutlass_sparse_gemm_caller true 64 true 2 2 (fun _ _ => 3)
        (fun a _ _ => (a : ℚ)) (fun _ _ => 5)).out 0 0
      = (cutlass_sparse_gemm_caller true 64 true 2 2 (fun _ _ => 3)
        (fun a _ _ => (a : ℚ)) (fun _ _ => 9)).out 0 0 :=
  gemm_caller_output_independent_of_prior 64 2 2 (fun _ _ => 3)
    (fun a _ _ => (a : ℚ)) (fun _ _ => 5) (fun _ _ => 9) 0 0
    (by decide) (by decide)

end SparseScaledMM
